import Mathlib

/-!
Verification of the lifecycle core of src/daemon/collectd.c: the interval
scheduler (do_loop), the terminate-signal handlers, the pidfile manager,
the readiness notifiers (notify_upstart, notify_systemd), change_basedir,
and the orchestration in main.  Machine times (cdtime_t) are modelled as
Nat; the 64-bit wraparound of cdtime_t is irrelevant at the magnitudes the
daemon ever sees and is not modelled.  External effects (plugin calls,
nanosleep outcomes, chdir/mkdir results, fork results) are supplied as
oracle inputs, and observable actions are collected in event traces.
-/

namespace Collectd

/-- The global counter `loop`; the scheduler runs while it is zero
(`while (loop == 0)`), so the stop condition is `loop != 0`. -/
def stopRequested (lp : Nat) : Bool := lp != 0

/-- Handler for SIGINT: `loop++`. -/
def sig_int_handler (lp : Nat) : Nat := lp + 1

/-- Handler for SIGTERM: `loop++`. -/
def sig_term_handler (lp : Nat) : Nat := lp + 1

/-- The two terminate signals. -/
inductive TermSig
  | sigint
  | sigterm
deriving DecidableEq

/-- Dispatch a terminate signal to its handler. -/
def applySig : TermSig → Nat → Nat
  | .sigint, lp => sig_int_handler lp
  | .sigterm, lp => sig_term_handler lp

/-- Deliver a sequence of terminate signals. -/
def applySigs (sigs : List TermSig) (lp : Nat) : Nat :=
  sigs.foldl (fun a s => applySig s a) lp

/-- Outcome of one `nanosleep` call: returned 0, or failed with
`errno == EINTR` (with the remaining duration written back into the
`timespec`), or failed with some other errno. -/
inductive NsOutcome
  | ok
  | eintr (remaining : Nat)
  | err
deriving DecidableEq

/-- One iteration of the inner sleep loop guard: the value of `loop`
observed by the `loop == 0` check, and the `nanosleep` outcome if it runs. -/
structure SleepStep where
  lp : Nat
  out : NsOutcome
deriving DecidableEq

/-- Observable events of the scheduler loop. -/
inductive Event
  | readAll
  | warn (overrun : Nat)
  | sleepReq (d : Nat)
  | errorLog
deriving DecidableEq

/-- How the inner sleep loop ends: guard became false (stop observed or
sleep completed), returned -1 on a non-EINTR error, or the oracle script
ran out while the loop would continue. -/
inductive SleepLoopRes
  | exited
  | fatal
  | pending
deriving DecidableEq

/-- The inner sleep loop of do_loop:
`while ((loop == 0) && (nanosleep (&ts_wait, &ts_wait) != 0))
   { if (errno != EINTR) { ERROR; return (-1); } }`.
The first argument is the current content of `ts_wait`. -/
def sleep_loop : Nat → List SleepStep → SleepLoopRes × List Event
  | _, [] => (.pending, [])
  | d, s :: rest =>
    if stopRequested s.lp then (.exited, [])
    else
      match s.out with
      | .ok => (.exited, [.sleepReq d])
      | .err => (.fatal, [.sleepReq d, .errorLog])
      | .eintr rem =>
        let p := sleep_loop rem rest
        (p.1, .sleepReq d :: p.2)

/-- Per-iteration oracle input for do_loop: the value of `loop` at the
top-of-iteration check, the value `cdtime ()` returns after
`plugin_read_all`, and the sleep-loop script. -/
structure TickInput where
  lp : Nat
  now : Nat
  sleeps : List SleepStep
deriving DecidableEq

/-- Result of one iteration body. -/
inductive TickStatus
  | next
  | fatal
  | pending
deriving DecidableEq

/-- One iteration body of do_loop after the top-of-iteration check:
`plugin_read_all (); now = cdtime ();` then either the overrun branch
(warning, `wait_until = now + interval`, `continue`) or the sleep branch
(`ts_wait = wait_until - now; wait_until = wait_until + interval;` then
the inner sleep loop).  Returns the status, the updated `wait_until`, and
the events of the iteration. -/
def do_loop_tick (interval wu : Nat) (t : TickInput) : (TickStatus × Nat) × List Event :=
  if t.now ≥ wu then
    ((.next, t.now + interval), [.readAll, .warn (t.now - wu)])
  else
    match sleep_loop (wu - t.now) t.sleeps with
    | (.exited, evs) => ((.next, wu + interval), .readAll :: evs)
    | (.fatal, evs) => ((.fatal, wu + interval), .readAll :: evs)
    | (.pending, evs) => ((.pending, wu + interval), .readAll :: evs)

/-- The while-loop of do_loop, driven by a finite oracle script; returns
`some 0` when the top-of-iteration check observes the stop condition,
`some (-1)` on a fatal sleep error, `none` when the script runs out with
the loop still going, together with the final `wait_until` and the trace. -/
def do_loop_run (interval : Nat) : Nat → List TickInput → Option Int × Nat × List Event
  | wu, [] => (none, wu, [])
  | wu, t :: rest =>
    if stopRequested t.lp then (some 0, wu, [])
    else
      match do_loop_tick interval wu t with
      | ((.next, wu2), evs) =>
        let r := do_loop_run interval wu2 rest
        (r.1, r.2.1, evs ++ r.2.2)
      | ((.fatal, wu2), evs) => (some (-1), wu2, evs)
      | ((.pending, wu2), evs) => (none, wu2, evs)

/-- do_loop: `interval = cf_get_default_interval (); wait_until = cdtime () + interval;`
then the loop; `t0` is the value of `cdtime ()` at entry. -/
def do_loop_model (interval t0 : Nat) (ticks : List TickInput) : Option Int × Nat × List Event :=
  do_loop_run interval (t0 + interval) ticks

/-- A tick whose read finishes on time and whose sleep completes without
interruption or stop request. -/
def onTimeTick (now : Nat) : TickInput :=
  ⟨0, now, [⟨0, NsOutcome.ok⟩]⟩

theorem do_loop_run_ontime (interval : Nat) (nows : List Nat) :
    ∀ wu, (∀ i (hi : i < nows.length), nows.get ⟨i, hi⟩ < wu + i * interval) →
      (do_loop_run interval wu (nows.map onTimeTick)).2.1 = wu + nows.length * interval := by
  induction nows with
  | nil => intro wu _; simp [do_loop_run]
  | cons n rest ih =>
    intro wu h
    have hn : n < wu := by
      have := h 0 (by simp)
      simpa using this
    have hrest : ∀ i (hi : i < rest.length), rest.get ⟨i, hi⟩ < (wu + interval) + i * interval := by
      intro i hi
      have := h (i + 1) (by simpa using Nat.succ_lt_succ hi)
      simp only [List.get_cons_succ] at this
      calc rest.get ⟨i, hi⟩ < wu + (i + 1) * interval := this
        _ = (wu + interval) + i * interval := by ring
    have hne : ¬ (n ≥ wu) := Nat.not_le.mpr hn
    have hbody := ih (wu + interval) hrest
    simp only [List.map_cons, do_loop_run, onTimeTick, stopRequested, do_loop_tick, sleep_loop]
    rw [if_neg hne]
    simp only [List.length_cons]
    simp [hbody]
    ring

/-! The PidFile manager: pidfile_create and pidfile_remove. -/

/-- A filesystem modelled as a map from path to file content. -/
abbrev Fs := String → Option String

/-- The bytes pidfile_create writes: `fprintf (fh, "%i\n", (int) getpid ())`. -/
def pid_text (pid : Nat) : String := Nat.repr pid ++ "\n"

/-- pidfile_create: `fopen (file, "w")`; on failure log and return 1,
otherwise write the decimal pid and a newline, close, return 0.  `openOk`
is the oracle for whether fopen succeeds. -/
def pidfile_create (file : String) (pid : Nat) (openOk : Bool) (fs : Fs) : Int × Fs :=
  if openOk then
    (0, fun p => if p = file then some (pid_text pid) else fs p)
  else (1, fs)

/-- pidfile_remove: return 0 without touching the filesystem when no
PIDFile option is configured, otherwise `unlink (file)` (0 on success,
-1 when the file does not exist). -/
def pidfile_remove (file : Option String) (fs : Fs) : Int × Fs :=
  match file with
  | none => (0, fs)
  | some f =>
    match fs f with
    | some _ => (0, fun p => if p = f then none else fs p)
    | none => (-1, fs)

/-! The readiness notifiers: notify_upstart and notify_systemd. -/

/-- The process environment as a map from variable name to value. -/
abbrev EnvMap := String → Option String

/-- Remove a variable from the environment (unsetenv). -/
def unsetenv (k : String) (env : EnvMap) : EnvMap :=
  fun k2 => if k2 = k then none else env k2

/-- Observable outcome of notify_upstart: the return value, whether
`raise (SIGSTOP)` happened, whether the mismatch warning was logged, and
the resulting environment. -/
structure UpstartOut where
  ret : Int
  raisedSigstop : Bool
  warned : Bool
  env : EnvMap

/-- notify_upstart: return 0 when UPSTART_JOB is absent; warn and return 0
when it is present but not "collectd"; otherwise raise SIGSTOP, clear
UPSTART_JOB and return 1. -/
def notify_upstart (env : EnvMap) : UpstartOut :=
  match env "UPSTART_JOB" with
  | none => ⟨0, false, false, env⟩
  | some j =>
    if j = "collectd" then
      ⟨1, true, false, unsetenv "UPSTART_JOB" env⟩
    else
      ⟨0, false, true, env⟩

/-- sizeof (sa_family_t) on the platforms this code targets. -/
def sizeof_sa_family : Nat := 2

/-- sizeof (su.sun_path). -/
def sizeof_sun_path : Nat := 108

/-- sizeof (struct sockaddr_un). -/
def sizeof_sockaddr_un : Nat := sizeof_sa_family + sizeof_sun_path

/-- The sun_path content produced by
`sstrncpy (su.sun_path, notifysocket, sizeof (su.sun_path))`: at most
sizeof (sun_path) - 1 characters are copied (sstrncpy null-terminates). -/
def sun_path_of (s : String) : List Char := s.data.take (sizeof_sun_path - 1)

/-- For a Linux abstract-namespace address the first byte of the copy is
overwritten with a null byte: `su.sun_path[0] = 0`. -/
def abstract_path (s : String) : List Char :=
  match sun_path_of s with
  | [] => []
  | _ :: rest => Char.ofNat 0 :: rest

/-- The address length passed to sendto:
`sizeof (su)` for a filesystem path, and for an abstract-namespace address
`sizeof (sa_family_t) + strlen (notifysocket)` capped at `sizeof (su)`,
so that unused trailing bytes are excluded. -/
def su_size_of (s : String) : Nat :=
  if s.data.head? = some '@' then
    min (sizeof_sa_family + s.length) sizeof_sockaddr_un
  else sizeof_sockaddr_un

/-- A datagram handed to sendto: payload, destination sun_path bytes and
the address length. -/
structure Datagram where
  payload : String
  destPath : List Char
  destLen : Nat
deriving DecidableEq

/-- The readiness payload: `char buffer[] = "READY=1\n"`. -/
def ready_payload : String := "READY=1\n"

/-- Observable outcome of notify_systemd: return value, the datagrams
successfully sent, whether a sendto call was attempted, whether an error
was logged, and the resulting environment. -/
structure SystemdOut where
  ret : Int
  sent : List Datagram
  attemptedSend : Bool
  errorReported : Bool
  env : EnvMap

/-- notify_systemd: return 0 when NOTIFY_SOCKET is absent; reject (with an
error, no socket use) values with fewer than two characters or whose first
character is neither '@' nor '/'; otherwise clear NOTIFY_SOCKET, create the
socket (oracle `socketOk`), build the sockaddr_un (abstract-namespace
conversion when the value starts with '@') and send READY=1 with a newline
(oracle `sendOk`); every failure returns 0, success returns 1. -/
def notify_systemd (env : EnvMap) (socketOk sendOk : Bool) : SystemdOut :=
  match env "NOTIFY_SOCKET" with
  | none => ⟨0, [], false, false, env⟩
  | some ns =>
    if ns.length < 2 ∨ (ns.data.head? ≠ some '@' ∧ ns.data.head? ≠ some '/') then
      ⟨0, [], false, true, env⟩
    else
      let env2 := unsetenv "NOTIFY_SOCKET" env
      if socketOk = false then ⟨0, [], false, true, env2⟩
      else
        let path := if ns.data.head? = some '@' then abstract_path ns else sun_path_of ns
        if sendOk = false then ⟨0, [], true, true, env2⟩
        else ⟨1, [⟨ready_payload, path, su_size_of ns⟩], true, false, env2⟩

/-! The change_basedir routine. -/

/-- Strip trailing slash characters, following the loop in change_basedir
that overwrites them with nul bytes and shortens the length. -/
def stripSlashes (s : String) : String :=
  ⟨(s.data.reverse.dropWhile (fun c => c = '/')).reverse⟩

/-- Outcome of a chdir call: success, failure with `errno == ENOENT`, or
failure with any other errno. -/
inductive ChdirRes
  | ok
  | enoent
  | othererr
deriving DecidableEq

/-- Observable outcome of change_basedir: the return status, the working
directory after a successful change, and the mkdir call (path and mode)
when one was made. -/
structure BasedirOut where
  ret : Int
  cwd : Option String
  mkdirCalled : Option (String × Nat)
deriving DecidableEq

/-- change_basedir: strip trailing slashes; fail when nothing remains;
chdir; on ENOENT create the directory with mode
`S_IRWXU | S_IRWXG | S_IRWXO` (0777, i.e. 511) and chdir again; any other
chdir failure, a mkdir failure, or a retry failure returns -1.
`r1` is the oracle for the first chdir, `mkdirOk` for mkdir, `r2ok` for
the retried chdir. -/
def change_basedir (orig : String) (r1 : ChdirRes) (mkdirOk : Bool) (r2ok : Bool) : BasedirOut :=
  let dir := stripSlashes orig
  if dir.length = 0 then ⟨-1, none, none⟩
  else
    match r1 with
    | .ok => ⟨0, some dir, none⟩
    | .othererr => ⟨-1, none, none⟩
    | .enoent =>
      if mkdirOk = false then ⟨-1, none, some (dir, 511)⟩
      else if r2ok then ⟨0, some dir, some (dir, 511)⟩
      else ⟨-1, none, some (dir, 511)⟩

/-! The orchestrator main, in the COLLECT_DAEMON and KERNEL_LINUX build. -/

/-- Calls main makes that the claims observe. -/
inductive MEvent
  | notifyUpstartCall
  | notifySystemdCall
  | forkCall
  | setsidCall
  | pidfileCreateCall
  | closeFd (n : Nat)
  | openNull
  | dupCall
  | readAllOnceCall
  | doLoopCall
  | doShutdownCall
  | pidfileRemoveCall
deriving DecidableEq

/-- Oracle inputs for one run of main, from the point where the config has
been parsed: results of the external calls main branches on. -/
structure MainEnv where
  cfReadOk : Bool
  basedirConfigured : Bool
  basedirOk : Bool
  initGlobalsOk : Bool
  testConfig : Bool
  testReadall : Bool
  daemonize : Bool
  upstartHandled : Bool
  systemdHandled : Bool
  forkOk : Bool
  isChild : Bool
  pidfileCreateOk : Bool
  openNullFd : Nat
  dupFd1 : Nat
  dupFd2 : Nat
  sigIntOk : Bool
  sigTermOk : Bool
  sigUsr1Ok : Bool
  doInitOk : Bool
  readAllOnceOk : Bool
  doShutdownOk : Bool
deriving DecidableEq

/-- Whether `daemonize && notify_upstart () == 0 && notify_systemd () == 0`
evaluates to true: daemonization was requested and neither supervisor
handshake reported handled. -/
def daemon_cond (e : MainEnv) : Bool :=
  e.daemonize && !e.upstartHandled && !e.systemdHandled

/-- The notifier calls made by the C short-circuit evaluation of the condition:
none when `daemonize` is unset, only notify_upstart when it reports
handled, both otherwise. -/
def notify_events (e : MainEnv) : List MEvent :=
  if e.daemonize = false then []
  else if e.upstartHandled then [.notifyUpstartCall]
  else [.notifyUpstartCall, .notifySystemdCall]

/-- The daemonizing branch of main: fork (error exits 1; the parent returns
0); the child calls setsid, creates the pidfile (exit 2 on failure), closes
descriptors 2, 1, 0, opens /dev/null expecting descriptor 0 and dups it
expecting 1 and then 2, returning 1 on any other descriptor number.
`some s` means the process terminates with status `s`; `none` means
execution continues (branch skipped, or child fully daemonized). -/
def daemon_branch (e : MainEnv) : Option Int × List MEvent :=
  if daemon_cond e = false then (none, notify_events e)
  else if e.forkOk = false then
    (some 1, [.notifyUpstartCall, .notifySystemdCall, .forkCall])
  else if e.isChild = false then
    (some 0, [.notifyUpstartCall, .notifySystemdCall, .forkCall])
  else if e.pidfileCreateOk = false then
    (some 2, [.notifyUpstartCall, .notifySystemdCall, .forkCall, .setsidCall,
      .pidfileCreateCall])
  else if e.openNullFd ≠ 0 then
    (some 1, [.notifyUpstartCall, .notifySystemdCall, .forkCall, .setsidCall,
      .pidfileCreateCall, .closeFd 2, .closeFd 1, .closeFd 0, .openNull])
  else if e.dupFd1 ≠ 1 then
    (some 1, [.notifyUpstartCall, .notifySystemdCall, .forkCall, .setsidCall,
      .pidfileCreateCall, .closeFd 2, .closeFd 1, .closeFd 0, .openNull, .dupCall])
  else if e.dupFd2 ≠ 2 then
    (some 1, [.notifyUpstartCall, .notifySystemdCall, .forkCall, .setsidCall,
      .pidfileCreateCall, .closeFd 2, .closeFd 1, .closeFd 0, .openNull, .dupCall,
      .dupCall])
  else
    (none, [.notifyUpstartCall, .notifySystemdCall, .forkCall, .setsidCall,
      .pidfileCreateCall, .closeFd 2, .closeFd 1, .closeFd 0, .openNull, .dupCall,
      .dupCall])

/-- main after the daemonizing section: install the three signal handlers
(each failure exits 1), run do_init, then either plugin_read_all_once
(-T mode) or do_loop (whose return value main discards), then do_shutdown,
and finally pidfile_remove when `daemonize` is set; the exit status is 1
exactly when an init, read-once or shutdown step failed. -/
def main_after_daemon (e : MainEnv) (evs : List MEvent) : Int × List MEvent :=
  if e.sigIntOk = false then (1, evs)
  else if e.sigTermOk = false then (1, evs)
  else if e.sigUsr1Ok = false then (1, evs)
  else if e.testReadall then
    ((if e.doShutdownOk then (if e.readAllOnceOk then (if e.doInitOk then 0 else 1) else 1)
        else 1),
     evs ++ ([MEvent.readAllOnceCall, MEvent.doShutdownCall]
       ++ (if e.daemonize then [MEvent.pidfileRemoveCall] else [])))
  else
    ((if e.doShutdownOk then (if e.doInitOk then 0 else 1) else 1),
     evs ++ ([MEvent.doLoopCall, MEvent.doShutdownCall]
       ++ (if e.daemonize then [MEvent.pidfileRemoveCall] else [])))

/-- main from config reading onward: early exits for config, basedir and
global-variable failures and for -t mode, then the daemonizing branch,
then the rest. -/
def main_run (e : MainEnv) : Int × List MEvent :=
  if e.cfReadOk = false then (1, [])
  else if e.basedirConfigured = false then (1, [])
  else if e.basedirOk = false then (1, [])
  else if e.initGlobalsOk = false then (1, [])
  else if e.testConfig then (0, [])
  else
    match daemon_branch e with
    | (some s, evs) => (s, evs)
    | (none, evs) => main_after_daemon e evs

/-! Helper lemmas. -/

theorem do_loop_tick_read_first (interval wu : Nat) (t : TickInput) :
    ∃ tail, (do_loop_tick interval wu t).2 = Event.readAll :: tail := by
  unfold do_loop_tick
  by_cases h : t.now ≥ wu
  · rw [if_pos h]
    exact ⟨_, rfl⟩
  · rw [if_neg h]
    rcases hp : sleep_loop (wu - t.now) t.sleeps with ⟨r, evs⟩
    cases r <;> exact ⟨evs, rfl⟩

theorem applySigs_ne_zero (sigs : List TermSig) :
    ∀ lp, lp ≠ 0 → applySigs sigs lp ≠ 0 := by
  induction sigs with
  | nil => intro lp h; simpa [applySigs] using h
  | cons s rest ih =>
    intro lp _
    have h2 : applySigs (s :: rest) lp = applySigs rest (applySig s lp) := by
      simp [applySigs]
    rw [h2]
    apply ih
    cases s <;> simp [applySig, sig_int_handler, sig_term_handler]

/-! The claims. -/

/-- C1: in do_loop, on every iteration where after the read-all invocation
the current time `now` is at or past the deadline `wait_until`, the loop
emits the overrun warning with magnitude `now - wait_until`, resets the
deadline to `now + interval` (not to the previous deadline plus the
interval), and continues immediately into the next iteration with no sleep
request: overrun ticks are dropped, never queued. -/
theorem C1_overrun_dropped (interval wu : Nat) (t : TickInput) (rest : List TickInput)
    (hrun : stopRequested t.lp = false) (hover : t.now ≥ wu) :
    do_loop_run interval wu (t :: rest) =
      ((do_loop_run interval (t.now + interval) rest).1,
       (do_loop_run interval (t.now + interval) rest).2.1,
       [Event.readAll, Event.warn (t.now - wu)]
         ++ (do_loop_run interval (t.now + interval) rest).2.2) := by
  simp [do_loop_run, do_loop_tick, hrun, hover]

/-- Witness for C1 at interval 10, deadline 5, read finishing at time 7. -/
theorem C1_overrun_dropped_witness :
    do_loop_run 10 5 [⟨0, 7, []⟩] = (none, 17, [Event.readAll, Event.warn 2]) := by
  have h := C1_overrun_dropped 10 5 ⟨0, 7, []⟩ [] (by decide) (by decide)
  simpa [do_loop_run] using h

/-- C2: in do_loop, every iteration finishing before its deadline requests a
sleep of exactly `wait_until - now` and advances the deadline to
`wait_until + interval`, anchored to the previous deadline and not to the
wake time; with the initial deadline `t0 + interval` at loop entry,
`n` consecutive on-time ticks leave the deadline at
`t0 + (n + 1) * interval`: deadlines advance by exactly one interval per
tick with no cumulative drift. -/
theorem C2_deadline_anchored_no_drift (interval t0 : Nat) (nows : List Nat)
    (hontime : ∀ i (hi : i < nows.length), nows.get ⟨i, hi⟩ < t0 + (i + 1) * interval) :
    (∀ wu (t : TickInput) rest, stopRequested t.lp = false → t.now < wu →
        t.sleeps = [⟨0, NsOutcome.ok⟩] →
        do_loop_run interval wu (t :: rest) =
          ((do_loop_run interval (wu + interval) rest).1,
           (do_loop_run interval (wu + interval) rest).2.1,
           [Event.readAll, Event.sleepReq (wu - t.now)]
             ++ (do_loop_run interval (wu + interval) rest).2.2))
    ∧ (do_loop_model interval t0 (nows.map onTimeTick)).2.1
        = t0 + (nows.length + 1) * interval := by
  constructor
  · intro wu t rest hrun hlt hs
    have hne : ¬ (t.now ≥ wu) := Nat.not_le.mpr hlt
    have hlp : t.lp = 0 := by simpa [stopRequested] using hrun
    simp [do_loop_run, do_loop_tick, sleep_loop, hne, hs, stopRequested, hlp]
  · have harg : ∀ i (hi : i < nows.length),
        nows.get ⟨i, hi⟩ < (t0 + interval) + i * interval := by
      intro i hi
      calc nows.get ⟨i, hi⟩ < t0 + (i + 1) * interval := hontime i hi
        _ = (t0 + interval) + i * interval := by ring
    have h := do_loop_run_ontime interval nows (t0 + interval) harg
    unfold do_loop_model
    rw [h]
    ring

/-- Witness for C2: interval 10, entry time 0, on-time reads at 3 and 12;
after two ticks the deadline is 30. -/
theorem C2_deadline_anchored_no_drift_witness :
    (do_loop_model 10 0 ([3, 12].map onTimeTick)).2.1 = 0 + (2 + 1) * 10 :=
  (C2_deadline_anchored_no_drift 10 0 [3, 12] (by decide)).2

/-- C3: the stop condition `loop != 0` is monotone under the two
terminate-signal handlers and under every sequence of their deliveries;
two consecutive terminate signals leave the exit condition exactly as one
does; and do_loop exits only at the top-of-iteration check: when the stop
condition is observed there the loop returns 0 immediately with no further
events, and when it is not, the iteration performs its read-all call. -/
theorem C3_stop_monotone_idempotent :
    (∀ lp, stopRequested lp = true →
        stopRequested (sig_int_handler lp) = true
          ∧ stopRequested (sig_term_handler lp) = true)
    ∧ (∀ sigs lp, stopRequested lp = true → stopRequested (applySigs sigs lp) = true)
    ∧ (∀ s1 s2 lp,
        stopRequested (applySig s2 (applySig s1 lp)) = stopRequested (applySig s1 lp))
    ∧ (∀ interval wu (t : TickInput) rest, stopRequested t.lp = true →
        do_loop_run interval wu (t :: rest) = (some 0, wu, []))
    ∧ (∀ interval wu (t : TickInput) rest, stopRequested t.lp = false →
        Event.readAll ∈ (do_loop_run interval wu (t :: rest)).2.2) := by
  refine ⟨?_, ?_, ?_, ?_, ?_⟩
  · intro lp _
    constructor <;> simp [stopRequested, sig_int_handler, sig_term_handler]
  · intro sigs lp h
    have h0 : lp ≠ 0 := by simpa [stopRequested] using h
    simpa [stopRequested] using applySigs_ne_zero sigs lp h0
  · intro s1 s2 lp
    cases s1 <;> cases s2 <;>
      simp [applySig, stopRequested, sig_int_handler, sig_term_handler]
  · intro interval wu t rest h
    simp [do_loop_run, h]
  · intro interval wu t rest h
    obtain ⟨tail, htail⟩ := do_loop_tick_read_first interval wu t
    simp only [do_loop_run, h, Bool.false_eq_true, if_false]
    rcases hT : do_loop_tick interval wu t with ⟨⟨st, wu2⟩, evs⟩
    rw [hT] at htail
    simp only at htail
    cases st <;> simp [htail]

/-- Witness for C3: a delivered SIGINT then SIGTERM keeps the stop
condition set, and a tick script whose top check sees `loop == 3` makes
do_loop return 0 with an empty trace. -/
theorem C3_stop_monotone_idempotent_witness :
    stopRequested (applySigs [TermSig.sigint, TermSig.sigterm] 1) = true
    ∧ do_loop_run 10 20 [⟨3, 0, []⟩] = (some 0, 20, []) :=
  ⟨C3_stop_monotone_idempotent.2.1 [TermSig.sigint, TermSig.sigterm] 1 (by decide),
   C3_stop_monotone_idempotent.2.2.2.1 10 20 ⟨3, 0, []⟩ [] (by decide)⟩

/-- C4: in the interruptible sleep of do_loop, an EINTR interruption leads to the
stop flag being re-checked at the guard and, when it is still unset, the
sleep resuming for the remaining duration, while a set flag ends the sleep
without resuming; a non-EINTR nanosleep failure logs the error and makes
do_loop return the failure result -1 — the value that the orchestrator
receives from the do_loop call — and main proceeds to do_shutdown after the
loop call on every loop-mode run regardless of that result. -/
theorem C4_sleep_interrupt_and_fatal :
    (∀ d rem lp1 lp2 o rest, stopRequested lp1 = false → stopRequested lp2 = false →
        sleep_loop d (⟨lp1, NsOutcome.eintr rem⟩ :: ⟨lp2, o⟩ :: rest)
          = ((sleep_loop rem (⟨lp2, o⟩ :: rest)).1,
             Event.sleepReq d :: (sleep_loop rem (⟨lp2, o⟩ :: rest)).2))
    ∧ (∀ d rem lp1 lp2 o rest, stopRequested lp1 = false → stopRequested lp2 = true →
        sleep_loop d (⟨lp1, NsOutcome.eintr rem⟩ :: ⟨lp2, o⟩ :: rest)
          = (.exited, [Event.sleepReq d]))
    ∧ (∀ d lp rest, stopRequested lp = false →
        sleep_loop d (⟨lp, NsOutcome.err⟩ :: rest)
          = (.fatal, [Event.sleepReq d, Event.errorLog]))
    ∧ (∀ interval wu (t : TickInput) rest, stopRequested t.lp = false → t.now < wu →
        (sleep_loop (wu - t.now) t.sleeps).1 = .fatal →
        do_loop_run interval wu (t :: rest)
          = (some (-1), wu + interval,
             Event.readAll :: (sleep_loop (wu - t.now) t.sleeps).2))
    ∧ (∀ e : MainEnv, e.cfReadOk = true → e.basedirConfigured = true →
        e.basedirOk = true → e.initGlobalsOk = true → e.testConfig = false →
        e.testReadall = false → e.sigIntOk = true → e.sigTermOk = true →
        e.sigUsr1Ok = true → (daemon_branch e).1 = none →
        (main_run e).2 = (daemon_branch e).2
          ++ [MEvent.doLoopCall, MEvent.doShutdownCall]
          ++ (if e.daemonize then [MEvent.pidfileRemoveCall] else [])) := by
  refine ⟨?_, ?_, ?_, ?_, ?_⟩
  · intro d rem lp1 lp2 o rest h1 h2
    simp [sleep_loop, h1]
  · intro d rem lp1 lp2 o rest h1 h2
    simp [sleep_loop, h1, h2]
  · intro d lp rest h
    simp [sleep_loop, h]
  · intro interval wu t rest h hlt hfatal
    have hne : ¬ (t.now ≥ wu) := Nat.not_le.mpr hlt
    rcases hp : sleep_loop (wu - t.now) t.sleeps with ⟨r, evs⟩
    rw [hp] at hfatal
    simp only at hfatal
    subst hfatal
    simp [do_loop_run, do_loop_tick, h, hne, hp]
  · intro e h1 h2 h3 h4 h5 h6 h7 h8 h9 hd
    rcases hb : daemon_branch e with ⟨st, evs⟩
    rw [hb] at hd
    simp only at hd
    subst hd
    by_cases hdm : e.daemonize <;>
      simp [main_run, h1, h2, h3, h4, h5, hb, main_after_daemon, h6, h7, h8, h9, hdm]

/-- Witness for C4: a sleep of 5 interrupted with 3 remaining resumes for 3
and then hits a non-EINTR failure, so do_loop returns -1 after logging; the
trace of a foreground loop-mode run of main ends with the do_loop call, the
do_shutdown call and no pidfile removal. -/
theorem C4_sleep_interrupt_and_fatal_witness :
    do_loop_run 10 8 [⟨0, 3, [⟨0, NsOutcome.eintr 3⟩, ⟨0, NsOutcome.err⟩]⟩]
      = (some (-1), 18,
         [Event.readAll, Event.sleepReq 5, Event.sleepReq 3, Event.errorLog])
    ∧ (main_run ⟨true, true, true, true, false, false, false, false, false,
        true, false, true, 0, 1, 2, true, true, true, true, true, true⟩).2
      = [MEvent.doLoopCall, MEvent.doShutdownCall] := by
  constructor
  · have h := C4_sleep_interrupt_and_fatal.2.2.2.1 10 8
      ⟨0, 3, [⟨0, NsOutcome.eintr 3⟩, ⟨0, NsOutcome.err⟩]⟩ [] (by decide) (by decide)
      (by decide)
    simpa using h
  · have h := C4_sleep_interrupt_and_fatal.2.2.2.2
      ⟨true, true, true, true, false, false, false, false, false,
        true, false, true, 0, 1, 2, true, true, true, true, true, true⟩
      rfl rfl rfl rfl rfl rfl rfl rfl rfl (by decide)
    simpa [daemon_branch, daemon_cond, notify_events] using h

/-- C5: pidfile_create returns non-zero and leaves the filesystem unchanged
when the configured path cannot be opened — and the daemonizing caller then
exits with status 2 — and otherwise returns 0 with the file holding exactly
the decimal process id followed by a newline; pidfile_remove returns 0 as a
no-op when no PIDFile path is configured, and after create-then-remove the
file no longer exists. -/
theorem C5_pidfile_create_remove :
    (∀ file pid fs, pidfile_create file pid false fs = (1, fs))
    ∧ (∀ file pid fs, (pidfile_create file pid true fs).1 = 0
        ∧ (pidfile_create file pid true fs).2 file = some (Nat.repr pid ++ "\n"))
    ∧ (∀ fs, pidfile_remove none fs = (0, fs))
    ∧ (∀ file pid fs,
        (pidfile_remove (some file) (pidfile_create file pid true fs).2).1 = 0
        ∧ (pidfile_remove (some file) (pidfile_create file pid true fs).2).2 file = none)
    ∧ (∀ e : MainEnv, e.cfReadOk = true → e.basedirConfigured = true →
        e.basedirOk = true → e.initGlobalsOk = true → e.testConfig = false →
        daemon_cond e = true → e.forkOk = true → e.isChild = true →
        e.pidfileCreateOk = false → (main_run e).1 = 2) := by
  refine ⟨?_, ?_, ?_, ?_, ?_⟩
  · intro file pid fs
    simp [pidfile_create]
  · intro file pid fs
    simp [pidfile_create, pid_text]
  · intro fs
    simp [pidfile_remove]
  · intro file pid fs
    simp [pidfile_remove, pidfile_create, pid_text]
  · intro e h1 h2 h3 h4 h5 hc hf hch hp
    simp [main_run, h1, h2, h3, h4, h5, daemon_branch, hc, hf, hch, hp]

/-- Witness for C5 at path "/run/collectd.pid" and pid 1234 over an empty
filesystem, plus exit status 2 in the caller when create fails. -/
theorem C5_pidfile_create_remove_witness :
    ((pidfile_create "/run/collectd.pid" 1234 true (fun _ => none)).2 "/run/collectd.pid"
        = some "1234\n")
    ∧ ((pidfile_remove (some "/run/collectd.pid")
          (pidfile_create "/run/collectd.pid" 1234 true (fun _ => none)).2).2
        "/run/collectd.pid" = none)
    ∧ (main_run ⟨true, true, true, true, false, false, true, false, false,
        true, true, false, 0, 1, 2, true, true, true, true, true, true⟩).1 = 2 := by
  refine ⟨?_, ?_, ?_⟩
  · have h := (C5_pidfile_create_remove.2.1 "/run/collectd.pid" 1234 (fun _ => none)).2
    simpa using h
  · exact (C5_pidfile_create_remove.2.2.2.1 "/run/collectd.pid" 1234 (fun _ => none)).2
  · exact C5_pidfile_create_remove.2.2.2.2
      ⟨true, true, true, true, false, false, true, false, false,
        true, true, false, 0, 1, 2, true, true, true, true, true, true⟩
      rfl rfl rfl rfl rfl (by decide) rfl rfl rfl

/-- C7: notify_upstart reports not-handled when UPSTART_JOB is absent; when
it equals "collectd" it raises SIGSTOP, clears UPSTART_JOB (leaving every
other variable untouched) and reports handled; when it is present with any
other value it logs a warning, raises nothing, reports not-handled and
leaves the environment unchanged. -/
theorem C7_notify_upstart :
    (∀ env : EnvMap, env "UPSTART_JOB" = none →
        notify_upstart env = ⟨0, false, false, env⟩)
    ∧ (∀ env : EnvMap, env "UPSTART_JOB" = some "collectd" →
        (notify_upstart env).ret = 1
        ∧ (notify_upstart env).raisedSigstop = true
        ∧ (notify_upstart env).env "UPSTART_JOB" = none
        ∧ ∀ k, k ≠ "UPSTART_JOB" → (notify_upstart env).env k = env k)
    ∧ (∀ (env : EnvMap) j, env "UPSTART_JOB" = some j → j ≠ "collectd" →
        (notify_upstart env).ret = 0
        ∧ (notify_upstart env).warned = true
        ∧ (notify_upstart env).raisedSigstop = false
        ∧ (notify_upstart env).env = env) := by
  refine ⟨?_, ?_, ?_⟩
  · intro env h
    simp [notify_upstart, h]
  · intro env h
    refine ⟨?_, ?_, ?_, ?_⟩ <;> simp [notify_upstart, h, unsetenv]
    intro k hk
    simp [hk]
  · intro env j h hj
    refine ⟨?_, ?_, ?_, ?_⟩ <;> simp [notify_upstart, h, hj]

/-- Concrete environment where UPSTART_JOB is set to "collectd". -/
def envUpstart : EnvMap :=
  fun k => if k = "UPSTART_JOB" then some "collectd" else none

/-- Witness for C7: with UPSTART_JOB="collectd" the handshake reports
handled, raises SIGSTOP and clears the marker. -/
theorem C7_notify_upstart_witness :
    (notify_upstart envUpstart).ret = 1
    ∧ (notify_upstart envUpstart).raisedSigstop = true
    ∧ (notify_upstart envUpstart).env "UPSTART_JOB" = none :=
  ⟨(C7_notify_upstart.2.1 envUpstart rfl).1,
   (C7_notify_upstart.2.1 envUpstart rfl).2.1,
   (C7_notify_upstart.2.1 envUpstart rfl).2.2.1⟩

/-- Concrete environment where NOTIFY_SOCKET is the one-character path "/". -/
def envSlash : EnvMap :=
  fun k => if k = "NOTIFY_SOCKET" then some "/" else none

/-- Counterexample to C8 as stated: the path "/" is non-empty and begins
with the absolute-path marker '/', so the claim places it on the valid
branch where one datagram is sent; but notify_systemd additionally
requires at least two characters (`strlen (notifysocket) < 2` rejects it),
so it reports not-handled without attempting any send. -/
theorem C8_counterexample :
    ("/" : String) ≠ ""
    ∧ ("/" : String).data.head? = some '/'
    ∧ (notify_systemd envSlash true true).ret = 0
    ∧ (notify_systemd envSlash true true).sent = []
    ∧ (notify_systemd envSlash true true).attemptedSend = false := by
  refine ⟨by decide, by decide, ?_, ?_, ?_⟩ <;> rfl

/-- C8 amended: paths with fewer than two characters, or whose first
character is neither '/' nor '@', are rejected without any socket send
(this is the only change to the claim: the code demands length at least 2,
so the one-character paths "/" and "@" are also rejected); for a valid
path exactly one datagram with the literal payload READY=1 plus a newline
is sent — with an abstract-namespace address converted to begin with a
null byte and an address length that excludes unused trailing bytes — the
NOTIFY_SOCKET marker is cleared, and socket or send failures are non-fatal
(error logged, not-handled, marker still cleared). -/
theorem C8_notify_systemd_amended :
    (∀ (env : EnvMap) sOk dOk, env "NOTIFY_SOCKET" = none →
        notify_systemd env sOk dOk = ⟨0, [], false, false, env⟩)
    ∧ (∀ (env : EnvMap) ns sOk dOk, env "NOTIFY_SOCKET" = some ns →
        (ns.length < 2 ∨ (ns.data.head? ≠ some '@' ∧ ns.data.head? ≠ some '/')) →
        notify_systemd env sOk dOk = ⟨0, [], false, true, env⟩)
    ∧ (∀ (env : EnvMap) ns, env "NOTIFY_SOCKET" = some ns →
        ¬ (ns.length < 2 ∨ (ns.data.head? ≠ some '@' ∧ ns.data.head? ≠ some '/')) →
        (notify_systemd env true true).ret = 1
        ∧ (notify_systemd env true true).sent
            = [⟨ready_payload,
                if ns.data.head? = some '@' then abstract_path ns else sun_path_of ns,
                su_size_of ns⟩]
        ∧ (notify_systemd env true true).env "NOTIFY_SOCKET" = none)
    ∧ (∀ (env : EnvMap) ns sOk dOk, env "NOTIFY_SOCKET" = some ns →
        ¬ (ns.length < 2 ∨ (ns.data.head? ≠ some '@' ∧ ns.data.head? ≠ some '/')) →
        sOk = false ∨ dOk = false →
        (notify_systemd env sOk dOk).ret = 0
        ∧ (notify_systemd env sOk dOk).sent = []
        ∧ (notify_systemd env sOk dOk).errorReported = true
        ∧ (notify_systemd env sOk dOk).env "NOTIFY_SOCKET" = none)
    ∧ (∀ ns : String, ns.data.head? = some '@' →
        (abstract_path ns).head? = some (Char.ofNat 0)
        ∧ (sizeof_sa_family + ns.length ≤ sizeof_sockaddr_un →
            su_size_of ns = sizeof_sa_family + ns.length)) := by
  refine ⟨?_, ?_, ?_, ?_, ?_⟩
  · intro env sOk dOk h
    simp [notify_systemd, h]
  · intro env ns sOk dOk h hbad
    simp only [notify_systemd, h]
    rw [if_pos hbad]
  · intro env ns h hgood
    refine ⟨?_, ?_, ?_⟩ <;>
      simp [notify_systemd, h, hgood, unsetenv]
  · intro env ns sOk dOk h hgood hfail
    simp only [notify_systemd, h]
    rw [if_neg hgood]
    cases sOk <;> cases dOk <;> simp_all [unsetenv]
  · intro ns h
    rcases hd : ns.data with _ | ⟨c, tail⟩
    · rw [hd] at h; simp at h
    · rw [hd] at h
      simp only [List.head?] at h
      constructor
      · simp [abstract_path, sun_path_of, hd, sizeof_sun_path]
      · intro hle
        have hh : ns.data.head? = some '@' := by rw [hd]; exact h
        simp [su_size_of, hh, Nat.min_eq_left hle]

/-- Concrete environment with an abstract-namespace notify socket. -/
def envAbstract : EnvMap :=
  fun k => if k = "NOTIFY_SOCKET" then some "@abc" else none

/-- Witness for C8: with NOTIFY_SOCKET="@abc" the handshake reports
handled, clears the marker, and the abstract address length is 2 + 4. -/
theorem C8_notify_systemd_amended_witness :
    (notify_systemd envAbstract true true).ret = 1
    ∧ (notify_systemd envAbstract true true).env "NOTIFY_SOCKET" = none
    ∧ su_size_of "@abc" = sizeof_sa_family + "@abc".length :=
  ⟨(C8_notify_systemd_amended.2.2.1 envAbstract "@abc" rfl (by decide)).1,
   (C8_notify_systemd_amended.2.2.1 envAbstract "@abc" rfl (by decide)).2.2,
   (C8_notify_systemd_amended.2.2.2.2 "@abc" (by decide)).2 (by decide)⟩

/-- C10: change_basedir strips trailing '/' characters before use (on
success the working directory is the stripped path); a path consisting
only of slashes, the root path "/" included, is rejected with -1; a first
chdir failing with ENOENT triggers mkdir with mode 0777 (511, before
umask) and a retried chdir; a first chdir failure with any other errno, a
mkdir failure, or a retry failure yields -1. -/
theorem C10_change_basedir :
    (∀ orig : String, (∀ c ∈ orig.data, c = '/') →
        ∀ r1 mk r2, change_basedir orig r1 mk r2 = ⟨-1, none, none⟩)
    ∧ (∀ (orig : String) mk r2, (stripSlashes orig).length ≠ 0 →
        change_basedir orig ChdirRes.ok mk r2 = ⟨0, some (stripSlashes orig), none⟩)
    ∧ (∀ orig : String, (stripSlashes orig).length ≠ 0 →
        change_basedir orig ChdirRes.enoent true true
          = ⟨0, some (stripSlashes orig), some (stripSlashes orig, 511)⟩)
    ∧ (∀ (orig : String) mk r2, (stripSlashes orig).length ≠ 0 →
        change_basedir orig ChdirRes.othererr mk r2 = ⟨-1, none, none⟩)
    ∧ (∀ (orig : String) r2, (stripSlashes orig).length ≠ 0 →
        change_basedir orig ChdirRes.enoent false r2
          = ⟨-1, none, some (stripSlashes orig, 511)⟩)
    ∧ (∀ orig : String, (stripSlashes orig).length ≠ 0 →
        change_basedir orig ChdirRes.enoent true false
          = ⟨-1, none, some (stripSlashes orig, 511)⟩) := by
  have hzero : ∀ s : String, (∀ c ∈ s.data, c = '/') → (stripSlashes s).length = 0 := by
    intro s h
    have hnil : s.data.reverse.dropWhile (fun c => c = '/') = [] := by
      rw [List.dropWhile_eq_nil_iff]
      intro x hx
      have := h x (List.mem_reverse.mp hx)
      simp [this]
    simp [stripSlashes, String.length, hnil]
  refine ⟨?_, ?_, ?_, ?_, ?_, ?_⟩
  · intro orig h r1 mk r2
    simp [change_basedir, hzero orig h]
  · intro orig mk r2 h
    simp [change_basedir, h]
  · intro orig h
    simp [change_basedir, h]
  · intro orig mk r2 h
    simp [change_basedir, h]
  · intro orig r2 h
    simp [change_basedir, h]
  · intro orig h
    simp [change_basedir, h]

/-- Witness for C10: "/opt/collectd//" is stripped to "/opt/collectd",
created with mode 511 on ENOENT and entered on retry; "///" is rejected. -/
theorem C10_change_basedir_witness :
    change_basedir "/opt/collectd//" ChdirRes.enoent true true
      = ⟨0, some "/opt/collectd", some ("/opt/collectd", 511)⟩
    ∧ change_basedir "///" ChdirRes.ok true true = ⟨-1, none, none⟩ := by
  constructor
  · have h := C10_change_basedir.2.2.1 "/opt/collectd//" (by decide)
    rw [h]
    decide
  · exact C10_change_basedir.1 "///" (by decide) ChdirRes.ok true true

theorem daemon_branch_trace (e : MainEnv) :
    (daemon_branch e).2.count MEvent.pidfileCreateCall ≤ 1
    ∧ MEvent.pidfileRemoveCall ∉ (daemon_branch e).2
    ∧ (MEvent.pidfileCreateCall ∈ (daemon_branch e).2 → daemon_cond e = true)
    ∧ ((daemon_branch e).1 = none → daemon_cond e = true →
        MEvent.pidfileCreateCall ∈ (daemon_branch e).2) := by
  unfold daemon_branch notify_events
  split_ifs <;> simp_all

theorem main_after_daemon_extra (e : MainEnv) (evs : List MEvent) :
    ∃ extra, (main_after_daemon e evs).2 = evs ++ extra
      ∧ (∀ ev ∈ extra, ev = MEvent.readAllOnceCall ∨ ev = MEvent.doLoopCall
          ∨ ev = MEvent.doShutdownCall ∨ ev = MEvent.pidfileRemoveCall)
      ∧ extra.count MEvent.pidfileRemoveCall ≤ 1
      ∧ (MEvent.pidfileRemoveCall ∈ extra → e.daemonize = true) := by
  unfold main_after_daemon
  split_ifs <;>
    first
    | ((refine ⟨[], ?_, ?_, ?_, ?_⟩ <;> simp); done)
    | ((refine ⟨_, rfl, ?_, ?_, ?_⟩ <;>
        first
        | decide
        | (intro _; assumption)
        | simp); done)

theorem notify_events_members (e : MainEnv) :
    ∀ ev ∈ notify_events e,
      ev = MEvent.notifyUpstartCall ∨ ev = MEvent.notifySystemdCall := by
  unfold notify_events
  split_ifs <;> decide

theorem daemon_cond_split (e : MainEnv) (h : daemon_cond e = true) :
    e.daemonize = true ∧ e.upstartHandled = false ∧ e.systemdHandled = false := by
  have h2 := h
  simp only [daemon_cond, Bool.and_eq_true, Bool.not_eq_true'] at h2
  exact ⟨h2.1.1, h2.1.2, h2.2⟩

/-- Oracle inputs for a run where daemonization is requested but the
systemd handshake reports handled. -/
def envC6 : MainEnv :=
  ⟨true, true, true, true, false, false, true, false, true,
   true, true, true, 0, 1, 2, true, true, true, true, true, true⟩

/-- Counterexample to C6 as stated: in this run daemonization was requested
but the systemd handshake took over, so pidfile_create is never invoked,
yet main still invokes pidfile_remove at shutdown, because the removal at
the end of main is guarded only by the daemonize flag and not by whether
this process created the file. -/
theorem C6_counterexample :
    MEvent.pidfileRemoveCall ∈ (main_run envC6).2
    ∧ MEvent.pidfileCreateCall ∉ (main_run envC6).2 := by
  decide

/-- C6 amended: over every run of main, pidfile_create and pidfile_remove
are each invoked at most once; pidfile_create only when daemonization was
requested and neither supervisor handshake reported handled; pidfile_remove
whenever daemonization was requested — including runs where a supervisor
handshake took over and no PID file was created — and in a run where
daemonization was requested and no handshake was handled, a pidfile_remove
is always preceded by a pidfile_create. -/
theorem C6_pidfile_pairing_amended (e : MainEnv) :
    (main_run e).2.count MEvent.pidfileCreateCall ≤ 1
    ∧ (main_run e).2.count MEvent.pidfileRemoveCall ≤ 1
    ∧ (MEvent.pidfileCreateCall ∈ (main_run e).2 →
        e.daemonize = true ∧ e.upstartHandled = false ∧ e.systemdHandled = false)
    ∧ (MEvent.pidfileRemoveCall ∈ (main_run e).2 → e.daemonize = true)
    ∧ (MEvent.pidfileRemoveCall ∈ (main_run e).2 → e.upstartHandled = false →
        e.systemdHandled = false → MEvent.pidfileCreateCall ∈ (main_run e).2) := by
  unfold main_run
  split_ifs
  · simp
  · simp
  · simp
  · simp
  · simp
  · rcases hb : daemon_branch e with ⟨st, evs⟩
    have hd := daemon_branch_trace e
    rw [hb] at hd
    obtain ⟨hc1, hr0, hcimp, hcnone⟩ := hd
    simp only at hc1 hr0 hcimp hcnone
    cases st with
    | some s =>
      simp only
      refine ⟨hc1, ?_, fun hm => daemon_cond_split e (hcimp hm), ?_, ?_⟩
      · rw [List.count_eq_zero_of_not_mem hr0]
        exact Nat.zero_le 1
      · intro hm
        exact absurd hm hr0
      · intro hm
        exact absurd hm hr0
    | none =>
      simp only
      obtain ⟨extra, hx, hchar, hrc, hrd⟩ := main_after_daemon_extra e evs
      rw [hx]
      have hcre_extra : MEvent.pidfileCreateCall ∉ extra := by
        intro hm
        rcases hchar _ hm with h | h | h | h <;> simp at h
      have hrem_evs : MEvent.pidfileRemoveCall ∉ evs := hr0
      refine ⟨?_, ?_, ?_, ?_, ?_⟩
      · rw [List.count_append, List.count_eq_zero_of_not_mem hcre_extra]
        simpa using hc1
      · rw [List.count_append, List.count_eq_zero_of_not_mem hrem_evs]
        simpa using hrc
      · intro hm
        rcases List.mem_append.mp hm with hm | hm
        · exact daemon_cond_split e (hcimp hm)
        · exact absurd hm hcre_extra
      · intro hm
        rcases List.mem_append.mp hm with hm | hm
        · exact absurd hm hrem_evs
        · exact hrd hm
      · intro hm hup hsys
        rcases List.mem_append.mp hm with hm | hm
        · exact absurd hm hrem_evs
        · have hdm : e.daemonize = true := hrd hm
          have hcd : daemon_cond e = true := by
            simp [daemon_cond, hdm, hup, hsys]
          exact List.mem_append.mpr (Or.inl (hcnone rfl hcd))

/-- Witness for the amended C6 at a run where the systemd handshake took
over: the removal happens and daemonization was indeed requested. -/
theorem C6_pidfile_pairing_amended_witness :
    MEvent.pidfileRemoveCall ∈ (main_run envC6).2 ∧ envC6.daemonize = true :=
  ⟨by decide, (C6_pidfile_pairing_amended envC6).2.2.2.1 (by decide)⟩

/-- C9: the daemonization sequence runs only when daemonization is
requested and neither supervisor handshake reported handled — otherwise no
fork, setsid, pidfile creation or descriptor work happens; when it runs,
the parent exits 0 after the fork; the child detaches the session, creates
the PID file (exiting with status 2 on failure), closes descriptors 2, 1,
0 in that order, opens the null device and duplicates it twice, and a
returned descriptor number other than 0, 1, 2 respectively is a fatal
start-up error with exit status 1. -/
theorem C9_daemonization_sequence (e : MainEnv)
    (h1 : e.cfReadOk = true) (h2 : e.basedirConfigured = true)
    (h3 : e.basedirOk = true) (h4 : e.initGlobalsOk = true)
    (h5 : e.testConfig = false) :
    (daemon_cond e = false →
        MEvent.forkCall ∉ (main_run e).2 ∧ MEvent.setsidCall ∉ (main_run e).2
        ∧ MEvent.pidfileCreateCall ∉ (main_run e).2
        ∧ MEvent.openNull ∉ (main_run e).2)
    ∧ (daemon_cond e = true → e.forkOk = true → e.isChild = false →
        main_run e = (0, [MEvent.notifyUpstartCall, MEvent.notifySystemdCall,
          MEvent.forkCall]))
    ∧ (daemon_cond e = true → e.forkOk = true → e.isChild = true →
        e.pidfileCreateOk = false →
        main_run e = (2, [MEvent.notifyUpstartCall, MEvent.notifySystemdCall,
          MEvent.forkCall, MEvent.setsidCall, MEvent.pidfileCreateCall]))
    ∧ (daemon_cond e = true → e.forkOk = true → e.isChild = true →
        e.pidfileCreateOk = true → e.openNullFd = 0 → e.dupFd1 = 1 → e.dupFd2 = 2 →
        daemon_branch e = (none, [MEvent.notifyUpstartCall, MEvent.notifySystemdCall,
          MEvent.forkCall, MEvent.setsidCall, MEvent.pidfileCreateCall,
          MEvent.closeFd 2, MEvent.closeFd 1, MEvent.closeFd 0, MEvent.openNull,
          MEvent.dupCall, MEvent.dupCall]))
    ∧ (daemon_cond e = true → e.forkOk = true → e.isChild = true →
        e.pidfileCreateOk = true → e.openNullFd ≠ 0 → (main_run e).1 = 1)
    ∧ (daemon_cond e = true → e.forkOk = true → e.isChild = true →
        e.pidfileCreateOk = true → e.openNullFd = 0 → e.dupFd1 ≠ 1 →
        (main_run e).1 = 1)
    ∧ (daemon_cond e = true → e.forkOk = true → e.isChild = true →
        e.pidfileCreateOk = true → e.openNullFd = 0 → e.dupFd1 = 1 → e.dupFd2 ≠ 2 →
        (main_run e).1 = 1) := by
  refine ⟨?_, ?_, ?_, ?_, ?_, ?_, ?_⟩
  · intro hc
    have hbr : daemon_branch e = (none, notify_events e) := by
      simp [daemon_branch, hc]
    obtain ⟨extra, hx, hchar, _, _⟩ := main_after_daemon_extra e (notify_events e)
    have htr : (main_run e).2 = notify_events e ++ extra := by
      simp only [main_run, h1, h2, h3, h4, h5, hbr]
      simpa using hx
    rw [htr]
    have hnot : ∀ ev : MEvent, ev ∈ notify_events e ++ extra →
        ev = MEvent.notifyUpstartCall ∨ ev = MEvent.notifySystemdCall
        ∨ ev = MEvent.readAllOnceCall ∨ ev = MEvent.doLoopCall
        ∨ ev = MEvent.doShutdownCall ∨ ev = MEvent.pidfileRemoveCall := by
      intro ev hm
      rcases List.mem_append.mp hm with hm | hm
      · rcases notify_events_members e ev hm with h | h <;> tauto
      · rcases hchar ev hm with h | h | h | h <;> tauto
    refine ⟨?_, ?_, ?_, ?_⟩ <;>
      · intro hm
        rcases hnot _ hm with h | h | h | h | h | h <;> simp at h
  · intro hc hf hch
    simp [main_run, h1, h2, h3, h4, h5, daemon_branch, hc, hf, hch]
  · intro hc hf hch hp
    simp [main_run, h1, h2, h3, h4, h5, daemon_branch, hc, hf, hch, hp]
  · intro hc hf hch hp ho hd1 hd2
    simp [daemon_branch, hc, hf, hch, hp, ho, hd1, hd2]
  · intro hc hf hch hp ho
    simp [main_run, h1, h2, h3, h4, h5, daemon_branch, hc, hf, hch, hp, ho]
  · intro hc hf hch hp ho hd1
    simp [main_run, h1, h2, h3, h4, h5, daemon_branch, hc, hf, hch, hp, ho, hd1]
  · intro hc hf hch hp ho hd1 hd2
    simp [main_run, h1, h2, h3, h4, h5, daemon_branch, hc, hf, hch, hp, ho, hd1, hd2]

/-- Oracle inputs for a successfully daemonizing child run. -/
def envC9 : MainEnv :=
  ⟨true, true, true, true, false, false, true, false, false,
   true, true, true, 0, 1, 2, true, true, true, true, true, true⟩

/-- Witness for C9: the fully successful child run performs the sequence
setsid, pidfile creation, close 2, close 1, close 0, open null, dup, dup
and continues. -/
theorem C9_daemonization_sequence_witness :
    daemon_branch envC9 = (none, [MEvent.notifyUpstartCall, MEvent.notifySystemdCall,
      MEvent.forkCall, MEvent.setsidCall, MEvent.pidfileCreateCall,
      MEvent.closeFd 2, MEvent.closeFd 1, MEvent.closeFd 0, MEvent.openNull,
      MEvent.dupCall, MEvent.dupCall]) :=
  (C9_daemonization_sequence envC9 rfl rfl rfl rfl rfl).2.2.2.1
    (by decide) rfl rfl rfl rfl rfl rfl

end Collectd
